import Mathlib

/-!
Verification of the request validator of P4TG
(src/Controller/src/api/helper/validate.rs, function `validate_request`).

The validator is embedded shallowly: `validate_request` below mirrors the
Rust function statement by statement.  The Rust function returns
`Result<(), Error>` and additionally contains `Option::unwrap` calls that
can panic; we therefore use a three-valued result `VResult`
(`ok` / `err e` / `panicked`) so that reachability of panics is expressible.
Errors are represented by one constructor per `Error::new(format!(..))`
site, carrying the values that the Rust code interpolates into the message.
-/

namespace P4TG

/-- Modelled from the spec: the `Encapsulation` enumeration of
`core/traffic_gen_core/types.rs`, which is not part of the provided
sources.  The spec lists the variants None, Vlan, QinQ, Mpls, SRv6. -/
inductive Encapsulation where
  | None
  | Vlan
  | QinQ
  | Mpls
  | SRv6
deriving DecidableEq, Repr

/-- Modelled from the spec: the `GenerationMode` enumeration of
`core/traffic_gen_core/types.rs` (not in the provided sources); the spec
lists the variants Rate, Mpps, Analyze. -/
inductive GenerationMode where
  | Rate
  | Mpps
  | Analyze
deriving DecidableEq, Repr

/-- Modelled from the spec: an MPLS label stack entry (LSE).  Its contents
are irrelevant to validation; only the length of `mpls_stack` is read. -/
structure MPLSHeader where
deriving DecidableEq, Repr

/-- Modelled from the spec: one SRv6 segment identifier of a `sid_list`.
Only the length of the list is read by the validator. -/
structure SID where
deriving DecidableEq, Repr

/-- Modelled from the spec: a per-port VLAN configuration; only its
presence is read by the validator. -/
structure VlanConfig where
deriving DecidableEq, Repr

/-- Modelled from the spec: a per-port IPv4 configuration; only its
presence is read by the validator. -/
structure IpConfig where
deriving DecidableEq, Repr

/-- Modelled from the spec: a per-port IPv6 configuration; only its
presence is read by the validator. -/
structure Ipv6Config where
deriving DecidableEq, Repr

/-- Modelled from the spec: a per-port VxLAN configuration; only its
presence is read by the validator. -/
structure VxlanConfig where
deriving DecidableEq, Repr

/-- Modelled from the spec: the `Stream` record of
`core/traffic_gen_core/types.rs` (not in the provided sources), restricted
to the fields `validate_request` reads.  Machine integers are modelled as
`Nat`; the `f32` field `traffic_rate` is modelled as `ℚ` (exact rational
arithmetic in place of IEEE-754 single precision). -/
structure Stream where
  stream_id : Nat
  encapsulation : Encapsulation
  number_of_lse : Option Nat
  number_of_srv6_sids : Option Nat
  srv6_ip_tunneling : Option Bool
  ip_version : Option Nat
  vxlan : Bool
  frame_size : Nat
  traffic_rate : ℚ
deriving DecidableEq

/-- Modelled from the spec: the `StreamSetting` record of
`core/traffic_gen_core/types.rs` (not in the provided sources), restricted
to the fields `validate_request` reads. -/
structure StreamSetting where
  stream_id : Nat
  port : Nat
  vlan : Option VlanConfig
  mpls_stack : Option (List MPLSHeader)
  sid_list : Option (List SID)
  ip : Option IpConfig
  ipv6 : Option Ipv6Config
  vxlan : Option VxlanConfig
deriving DecidableEq

/-- Modelled from the spec: the fixed configuration constants of
`core/traffic_gen_core/const_definitions.rs` and the helper
`calculate_overhead` of `core/traffic_gen_core/helper.rs`, none of which
are in the provided sources.  The spec only says they exist (maximum MPLS
label count, maximum SRv6 SID count, maximum aggregate buffer size, and
the two rate ceilings), so the development is parameterised over them. -/
structure Consts where
  MAX_NUM_MPLS_LABEL : Nat
  MAX_NUM_SRV6_SIDS : Nat
  MAX_BUFFER_SIZE : Nat
  TG_MAX_RATE : ℚ
  TG_MAX_RATE_TF2 : ℚ
  calculate_overhead : Stream → Nat

/-- One constructor per `Error::new(format!(..))` site of `validate_request`,
carrying the values that the Rust code interpolates into the message text. -/
inductive VError where
  | numberOfLseMissing (stream_id : Nat)
  | lseExceedsMax (stream_id max : Nat)
  | lseZero (stream_id : Nat)
  | srv6OnlyTofino2
  | numberOfSidsMissing (stream_id : Nat)
  | sidsExceedMax (stream_id max : Nat)
  | sidsZero (stream_id : Nat)
  | vlanSettingsMissing (stream_id port : Nat)
  | mplsStackMissing (stream_id port : Nat)
  | lseCountMismatch (stream_id : Nat)
  | sidListMissing (stream_id port : Nat)
  | sidCountMismatch (stream_id : Nat)
  | unsupportedIpVersion (stream_id port : Nat)
  | ipv4SettingsMissing (stream_id port : Nat)
  | ipv6SettingsMissing (stream_id port : Nat)
  | vxlanSettingsMissing (stream_id : Nat)
  | vxlanWithIpv6 (stream_id : Nat)
  | vxlanWithSrv6 (stream_id : Nat)
  | packetSizeSumTooLarge (max : Nat)
  | noActiveStreams
  | noStream
  | rateTooLarge
deriving DecidableEq, Repr

/-- Outcome of running (a piece of) `validate_request`: `ok` models
`Ok(())`, `err e` models an early `return Err(..)`, and `panicked` models a
Rust panic raised by `Option::unwrap` on `None`. -/
inductive VResult where
  | ok
  | err (e : VError)
  | panicked
deriving DecidableEq, Repr

/-- Sequencing of checks: the Rust function returns on the first failing
check, so a later check is only relevant when all earlier ones passed. -/
def VResult.andThen : VResult → VResult → VResult
  | VResult.ok, r => r
  | e, _ => e

/-- Lines 31-59 of validate.rs: the per-stream structural checks on the
MPLS / SRv6 encapsulation fields.  The `unwrap` calls on `number_of_lse`
and `number_of_srv6_sids` are modelled by `match`es whose `none` branch is
`panicked`. -/
def checkStreamEncapsulation (c : Consts) (is_tofino2 : Bool) (stream : Stream) : VResult :=
  if stream.encapsulation = Encapsulation.Mpls then
    if stream.number_of_lse = none then
      VResult.err (VError.numberOfLseMissing stream.stream_id)
    else
      match stream.number_of_lse with
      | some lse =>
          if lse > c.MAX_NUM_MPLS_LABEL then
            VResult.err (VError.lseExceedsMax stream.stream_id c.MAX_NUM_MPLS_LABEL)
          else if lse = 0 then
            VResult.err (VError.lseZero stream.stream_id)
          else VResult.ok
      | none => VResult.panicked
  else if stream.encapsulation = Encapsulation.SRv6 then
    if !is_tofino2 then
      VResult.err VError.srv6OnlyTofino2
    else if stream.number_of_srv6_sids = none then
      VResult.err (VError.numberOfSidsMissing stream.stream_id)
    else
      match stream.number_of_srv6_sids with
      | some sids =>
          if sids > c.MAX_NUM_SRV6_SIDS then
            VResult.err (VError.sidsExceedMax stream.stream_id c.MAX_NUM_SRV6_SIDS)
          else if sids = 0 then
            VResult.err (VError.sidsZero stream.stream_id)
          else VResult.ok
      | none => VResult.panicked
  else VResult.ok

/-- Line 64 of validate.rs: VLAN/QinQ encapsulation requires a present
`vlan` setting. -/
def checkVlanSetting (stream : Stream) (setting : StreamSetting) : VResult :=
  if (stream.encapsulation = Encapsulation.Vlan ∨ stream.encapsulation = Encapsulation.QinQ)
      ∧ setting.vlan = none then
    VResult.err (VError.vlanSettingsMissing stream.stream_id setting.port)
  else VResult.ok

/-- Line 70 of validate.rs: MPLS encapsulation requires a present
`mpls_stack`. -/
def checkMplsStackPresent (stream : Stream) (setting : StreamSetting) : VResult :=
  if stream.encapsulation = Encapsulation.Mpls ∧ setting.mpls_stack = none then
    VResult.err (VError.mplsStackMissing stream.stream_id setting.port)
  else VResult.ok

/-- Line 75 of validate.rs: the `mpls_stack` length must equal
`number_of_lse`.  Both fields are `unwrap`ped (after `&&` short-circuit on
the encapsulation test), modelled by the `panicked` fallback. -/
def checkMplsStackLen (stream : Stream) (setting : StreamSetting) : VResult :=
  if stream.encapsulation = Encapsulation.Mpls then
    match setting.mpls_stack, stream.number_of_lse with
    | some stack, some lse =>
        if stack.length ≠ lse then
          VResult.err (VError.lseCountMismatch setting.stream_id)
        else VResult.ok
    | _, _ => VResult.panicked
  else VResult.ok

/-- Line 81 of validate.rs: SRv6 encapsulation requires a present
`sid_list`. -/
def checkSidListPresent (stream : Stream) (setting : StreamSetting) : VResult :=
  if stream.encapsulation = Encapsulation.SRv6 ∧ setting.sid_list = none then
    VResult.err (VError.sidListMissing stream.stream_id setting.port)
  else VResult.ok

/-- Line 86 of validate.rs: the `sid_list` length must equal
`number_of_srv6_sids`, with `unwrap`s modelled as in `checkMplsStackLen`. -/
def checkSidListLen (stream : Stream) (setting : StreamSetting) : VResult :=
  if stream.encapsulation = Encapsulation.SRv6 then
    match setting.sid_list, stream.number_of_srv6_sids with
    | some sids, some n =>
        if sids.length ≠ n then
          VResult.err (VError.sidCountMismatch setting.stream_id)
        else VResult.ok
    | _, _ => VResult.panicked
  else VResult.ok

/-- Lines 91-102 of validate.rs: the IP-addressing checks, skipped for an
SRv6 stream whose `srv6_ip_tunneling` flag is `Some(false)` (the flag
defaults to `true` when absent, via `unwrap_or(true)`). -/
def checkIpSettings (stream : Stream) (setting : StreamSetting) : VResult :=
  if (stream.encapsulation = Encapsulation.SRv6 ∧ stream.srv6_ip_tunneling.getD true = true)
      ∨ stream.encapsulation ≠ Encapsulation.SRv6 then
    if stream.ip_version ≠ some 6 ∧ stream.ip_version ≠ some 4 ∧ stream.ip_version ≠ none then
      VResult.err (VError.unsupportedIpVersion stream.stream_id setting.port)
    else if stream.ip_version = some 4 ∧ setting.ip = none then
      VResult.err (VError.ipv4SettingsMissing stream.stream_id setting.port)
    else if stream.ip_version = some 6 ∧ setting.ipv6 = none then
      VResult.err (VError.ipv6SettingsMissing stream.stream_id setting.port)
    else VResult.ok
  else VResult.ok

/-- Lines 62-105 of validate.rs: the checks performed on a setting whose
`stream_id` matches the current stream, in source order. -/
def checkMatchingSetting (stream : Stream) (setting : StreamSetting) : VResult :=
  (checkVlanSetting stream setting).andThen
    ((checkMplsStackPresent stream setting).andThen
      ((checkMplsStackLen stream setting).andThen
        ((checkSidListPresent stream setting).andThen
          ((checkSidListLen stream setting).andThen
            (checkIpSettings stream setting)))))

/-- Lines 107-119 of validate.rs: the VxLAN checks, performed against every
setting of the collection regardless of its `stream_id`. -/
def checkVxlanSetting (stream : Stream) (setting : StreamSetting) : VResult :=
  if stream.vxlan = true ∧ setting.vxlan = none then
    VResult.err (VError.vxlanSettingsMissing stream.stream_id)
  else if stream.vxlan = true ∧ stream.ip_version = some 6 then
    VResult.err (VError.vxlanWithIpv6 stream.stream_id)
  else if stream.vxlan = true ∧ stream.encapsulation = Encapsulation.SRv6 then
    VResult.err (VError.vxlanWithSrv6 stream.stream_id)
  else VResult.ok

/-- Lines 61-120 of validate.rs: one iteration of the inner loop over
`settings` for a fixed stream. -/
def checkSettingBody (stream : Stream) (setting : StreamSetting) : VResult :=
  (if setting.stream_id = stream.stream_id then checkMatchingSetting stream setting
   else VResult.ok).andThen
    (checkVxlanSetting stream setting)

/-- The inner `for setting in settings.iter()` loop for a fixed stream. -/
def checkSettingsForStream (stream : Stream) : List StreamSetting → VResult
  | [] => VResult.ok
  | setting :: rest =>
      (checkSettingBody stream setting).andThen (checkSettingsForStream stream rest)

/-- One iteration of the outer loop of validate.rs for a single stream. -/
def checkStream (c : Consts) (is_tofino2 : Bool) (settings : List StreamSetting)
    (stream : Stream) : VResult :=
  (checkStreamEncapsulation c is_tofino2 stream).andThen
    (checkSettingsForStream stream settings)

/-- The outer `for stream in streams.iter()` loop of validate.rs. -/
def checkStreams (c : Consts) (is_tofino2 : Bool) (settings : List StreamSetting) :
    List Stream → VResult
  | [] => VResult.ok
  | stream :: rest =>
      (checkStream c is_tofino2 settings stream).andThen
        (checkStreams c is_tofino2 settings rest)

/-- Line 123 of validate.rs: the sum of `frame_size` over all streams.
The source computes `sum::<u32>()` over `u32` values, so the sum is
reduced modulo 2^32 (the wrap-around of u32 addition in release builds). -/
def frameSizeSum (streams : List Stream) : Nat :=
  (streams.map (fun s => s.frame_size)).sum % 2 ^ 32

/-- Lines 137-142 of validate.rs: the aggregate rate.  In Mpps mode the
per-stream rate is `(frame_size + calculate_overhead(stream) + 20) * 8 *
traffic_rate / 1000`; otherwise `traffic_rate` is summed directly. -/
def aggregateRate (c : Consts) (mode : GenerationMode) (streams : List Stream) : ℚ :=
  if mode = GenerationMode.Mpps then
    (streams.map (fun x =>
      ((x.frame_size + c.calculate_overhead x + 20 : Nat) : ℚ) * 8 * x.traffic_rate / 1000)).sum
  else
    (streams.map (fun x => x.traffic_rate)).sum

/-- Lines 123-148 of validate.rs: the aggregate checks performed after the
stream loops (buffer size, non-emptiness, rate ceiling). -/
def checkAggregate (c : Consts) (streams : List Stream) (settings : List StreamSetting)
    (mode : GenerationMode) (is_tofino2 : Bool) : VResult :=
  if frameSizeSum streams > c.MAX_BUFFER_SIZE then
    VResult.err (VError.packetSizeSumTooLarge c.MAX_BUFFER_SIZE)
  else if settings = [] ∧ mode ≠ GenerationMode.Analyze then
    VResult.err VError.noActiveStreams
  else if streams = [] ∧ mode ≠ GenerationMode.Analyze then
    VResult.err VError.noStream
  else if mode ≠ GenerationMode.Analyze ∧
      aggregateRate c mode streams > (if is_tofino2 then c.TG_MAX_RATE_TF2 else c.TG_MAX_RATE) then
    VResult.err VError.rateTooLarge
  else VResult.ok

/-- The whole of `validate_request` (validate.rs lines 28-150): the nested
loops followed by the aggregate checks, returning on the first failure. -/
def validate_request (c : Consts) (streams : List Stream) (settings : List StreamSetting)
    (mode : GenerationMode) (is_tofino2 : Bool) : VResult :=
  (checkStreams c is_tofino2 settings streams).andThen
    (checkAggregate c streams settings mode is_tofino2)

/-- A concrete instantiation of the external constants, used to evaluate
the validator on concrete requests (the theorems themselves are
parameterised over `Consts`). -/
def c0 : Consts :=
  { MAX_NUM_MPLS_LABEL := 15
    MAX_NUM_SRV6_SIDS := 3
    MAX_BUFFER_SIZE := 64000
    TG_MAX_RATE := 100
    TG_MAX_RATE_TF2 := 400
    calculate_overhead := fun _ => 0 }

/-- A plain stream used as a base for concrete evaluations. -/
def baseStream : Stream :=
  { stream_id := 1
    encapsulation := Encapsulation.None
    number_of_lse := none
    number_of_srv6_sids := none
    srv6_ip_tunneling := none
    ip_version := none
    vxlan := false
    frame_size := 64
    traffic_rate := 1 }

/-- A plain setting used as a base for concrete evaluations. -/
def baseSetting : StreamSetting :=
  { stream_id := 1
    port := 5
    vlan := none
    mpls_stack := none
    sid_list := none
    ip := none
    ipv6 := none
    vxlan := none }

theorem andThen_ok_iff (a b : VResult) :
    a.andThen b = VResult.ok ↔ a = VResult.ok ∧ b = VResult.ok := by
  cases a <;> simp [VResult.andThen]

theorem andThen_panicked_iff (a b : VResult) :
    a.andThen b = VResult.panicked ↔
      a = VResult.panicked ∨ (a = VResult.ok ∧ b = VResult.panicked) := by
  cases a <;> simp [VResult.andThen]

theorem checkStreams_ok (c : Consts) (t2 : Bool) (settings : List StreamSetting)
    (streams : List Stream) (h : checkStreams c t2 settings streams = VResult.ok) :
    ∀ stream ∈ streams, checkStream c t2 settings stream = VResult.ok := by
  induction streams with
  | nil => intro s hs; cases hs
  | cons hd tl ih =>
      rw [checkStreams, andThen_ok_iff] at h
      intro s hs
      rcases List.mem_cons.mp hs with rfl | hmem
      · exact h.1
      · exact ih h.2 s hmem

theorem checkSettingsForStream_ok (stream : Stream) (settings : List StreamSetting)
    (h : checkSettingsForStream stream settings = VResult.ok) :
    ∀ setting ∈ settings, checkSettingBody stream setting = VResult.ok := by
  induction settings with
  | nil => intro s hs; cases hs
  | cons hd tl ih =>
      rw [checkSettingsForStream, andThen_ok_iff] at h
      intro s hs
      rcases List.mem_cons.mp hs with rfl | hmem
      · exact h.1
      · exact ih h.2 s hmem

theorem validate_ok_stream (c : Consts) (streams : List Stream)
    (settings : List StreamSetting) (mode : GenerationMode) (t2 : Bool) (stream : Stream)
    (h : validate_request c streams settings mode t2 = VResult.ok)
    (hs : stream ∈ streams) :
    checkStreamEncapsulation c t2 stream = VResult.ok ∧
      checkSettingsForStream stream settings = VResult.ok := by
  rw [validate_request, andThen_ok_iff] at h
  have := checkStreams_ok c t2 settings streams h.1 stream hs
  rw [checkStream, andThen_ok_iff] at this
  exact this

theorem validate_ok_setting (c : Consts) (streams : List Stream)
    (settings : List StreamSetting) (mode : GenerationMode) (t2 : Bool)
    (stream : Stream) (setting : StreamSetting)
    (h : validate_request c streams settings mode t2 = VResult.ok)
    (hs : stream ∈ streams) (hset : setting ∈ settings) :
    (setting.stream_id = stream.stream_id → checkMatchingSetting stream setting = VResult.ok) ∧
      checkVxlanSetting stream setting = VResult.ok := by
  have hloop := (validate_ok_stream c streams settings mode t2 stream h hs).2
  have hbody := checkSettingsForStream_ok stream settings hloop setting hset
  rw [checkSettingBody, andThen_ok_iff] at hbody
  refine ⟨fun hid => ?_, hbody.2⟩
  have := hbody.1
  rwa [if_pos hid] at this

theorem checkMatchingSetting_ok_iff (stream : Stream) (setting : StreamSetting) :
    checkMatchingSetting stream setting = VResult.ok ↔
      checkVlanSetting stream setting = VResult.ok ∧
      checkMplsStackPresent stream setting = VResult.ok ∧
      checkMplsStackLen stream setting = VResult.ok ∧
      checkSidListPresent stream setting = VResult.ok ∧
      checkSidListLen stream setting = VResult.ok ∧
      checkIpSettings stream setting = VResult.ok := by
  rw [checkMatchingSetting]
  simp only [andThen_ok_iff]

theorem validate_ok_aggregate (c : Consts) (streams : List Stream)
    (settings : List StreamSetting) (mode : GenerationMode) (t2 : Bool)
    (h : validate_request c streams settings mode t2 = VResult.ok) :
    checkAggregate c streams settings mode t2 = VResult.ok := by
  rw [validate_request, andThen_ok_iff] at h
  exact h.2

theorem checkAggregate_ok_iff (c : Consts) (streams : List Stream)
    (settings : List StreamSetting) (mode : GenerationMode) (t2 : Bool) :
    checkAggregate c streams settings mode t2 = VResult.ok ↔
      frameSizeSum streams ≤ c.MAX_BUFFER_SIZE ∧
      ¬(settings = [] ∧ mode ≠ GenerationMode.Analyze) ∧
      ¬(streams = [] ∧ mode ≠ GenerationMode.Analyze) ∧
      ¬(mode ≠ GenerationMode.Analyze ∧
        aggregateRate c mode streams >
          (if t2 then c.TG_MAX_RATE_TF2 else c.TG_MAX_RATE)) := by
  rw [checkAggregate]
  split_ifs with h1 h2 h3 h4 <;> simp_all [not_lt]

theorem checkVlanSetting_ne_panicked (stream : Stream) (setting : StreamSetting) :
    checkVlanSetting stream setting ≠ VResult.panicked := by
  rw [checkVlanSetting]; split_ifs <;> simp

theorem checkMplsStackPresent_ne_panicked (stream : Stream) (setting : StreamSetting) :
    checkMplsStackPresent stream setting ≠ VResult.panicked := by
  rw [checkMplsStackPresent]; split_ifs <;> simp

theorem checkSidListPresent_ne_panicked (stream : Stream) (setting : StreamSetting) :
    checkSidListPresent stream setting ≠ VResult.panicked := by
  rw [checkSidListPresent]; split_ifs <;> simp

theorem checkIpSettings_ne_panicked (stream : Stream) (setting : StreamSetting) :
    checkIpSettings stream setting ≠ VResult.panicked := by
  rw [checkIpSettings]; split_ifs <;> simp

theorem checkVxlanSetting_ne_panicked (stream : Stream) (setting : StreamSetting) :
    checkVxlanSetting stream setting ≠ VResult.panicked := by
  rw [checkVxlanSetting]; split_ifs <;> simp

theorem checkAggregate_ne_panicked (c : Consts) (streams : List Stream)
    (settings : List StreamSetting) (mode : GenerationMode) (t2 : Bool) :
    checkAggregate c streams settings mode t2 ≠ VResult.panicked := by
  rw [checkAggregate]; split_ifs <;> simp

theorem checkMplsStackPresent_ok_iff (stream : Stream) (setting : StreamSetting) :
    checkMplsStackPresent stream setting = VResult.ok ↔
      ¬(stream.encapsulation = Encapsulation.Mpls ∧ setting.mpls_stack = none) := by
  rw [checkMplsStackPresent]; split_ifs with h <;> simp [h]

theorem checkSidListPresent_ok_iff (stream : Stream) (setting : StreamSetting) :
    checkSidListPresent stream setting = VResult.ok ↔
      ¬(stream.encapsulation = Encapsulation.SRv6 ∧ setting.sid_list = none) := by
  rw [checkSidListPresent]; split_ifs with h <;> simp [h]

theorem checkMplsStackLen_panicked_iff (stream : Stream) (setting : StreamSetting) :
    checkMplsStackLen stream setting = VResult.panicked ↔
      stream.encapsulation = Encapsulation.Mpls ∧
        (setting.mpls_stack = none ∨ stream.number_of_lse = none) := by
  rw [checkMplsStackLen]
  by_cases h : stream.encapsulation = Encapsulation.Mpls
  · rcases hs : setting.mpls_stack with _ | stack <;>
      rcases hl : stream.number_of_lse with _ | lse <;>
        simp only [h, if_true, hs, hl] <;> simp <;> split_ifs <;> simp
  · simp [h]

theorem checkSidListLen_panicked_iff (stream : Stream) (setting : StreamSetting) :
    checkSidListLen stream setting = VResult.panicked ↔
      stream.encapsulation = Encapsulation.SRv6 ∧
        (setting.sid_list = none ∨ stream.number_of_srv6_sids = none) := by
  rw [checkSidListLen]
  by_cases h : stream.encapsulation = Encapsulation.SRv6
  · rcases hs : setting.sid_list with _ | sids <;>
      rcases hn : stream.number_of_srv6_sids with _ | n <;>
        simp only [h, if_true, hs, hn] <;> simp <;> split_ifs <;> simp

  · simp [h]

theorem checkStreamEncapsulation_ne_panicked (c : Consts) (t2 : Bool) (stream : Stream) :
    checkStreamEncapsulation c t2 stream ≠ VResult.panicked := by
  rw [checkStreamEncapsulation]
  rcases hl : stream.number_of_lse with _ | lse <;>
    rcases hn : stream.number_of_srv6_sids with _ | n <;>
      simp only [hl, hn] <;> split_ifs <;> simp

theorem checkStreamEncapsulation_ok_fields (c : Consts) (t2 : Bool) (stream : Stream)
    (h : checkStreamEncapsulation c t2 stream = VResult.ok) :
    (stream.encapsulation = Encapsulation.Mpls → stream.number_of_lse ≠ none) ∧
      (stream.encapsulation = Encapsulation.SRv6 → stream.number_of_srv6_sids ≠ none) := by
  rw [checkStreamEncapsulation] at h
  constructor
  · intro hM hnone
    rw [hM] at h
    simp only [hnone] at h
    simp at h
  · intro hS hnone
    rw [hS] at h
    simp only [hnone] at h
    split_ifs at h <;> simp_all

theorem checkMatchingSetting_ne_panicked (stream : Stream) (setting : StreamSetting)
    (hM : stream.encapsulation = Encapsulation.Mpls → stream.number_of_lse ≠ none)
    (hS : stream.encapsulation = Encapsulation.SRv6 → stream.number_of_srv6_sids ≠ none) :
    checkMatchingSetting stream setting ≠ VResult.panicked := by
  intro h
  rw [checkMatchingSetting] at h
  rcases (andThen_panicked_iff _ _).mp h with h1 | ⟨-, h⟩
  · exact checkVlanSetting_ne_panicked stream setting h1
  rcases (andThen_panicked_iff _ _).mp h with h2 | ⟨h2ok, h⟩
  · exact checkMplsStackPresent_ne_panicked stream setting h2
  rcases (andThen_panicked_iff _ _).mp h with h3 | ⟨-, h⟩
  · rcases (checkMplsStackLen_panicked_iff stream setting).mp h3 with ⟨hm, hnone | hnone⟩
    · exact (checkMplsStackPresent_ok_iff stream setting).mp h2ok ⟨hm, hnone⟩
    · exact hM hm hnone
  rcases (andThen_panicked_iff _ _).mp h with h4 | ⟨h4ok, h⟩
  · exact checkSidListPresent_ne_panicked stream setting h4
  rcases (andThen_panicked_iff _ _).mp h with h5 | ⟨-, h⟩
  · rcases (checkSidListLen_panicked_iff stream setting).mp h5 with ⟨hm, hnone | hnone⟩
    · exact (checkSidListPresent_ok_iff stream setting).mp h4ok ⟨hm, hnone⟩
    · exact hS hm hnone
  exact checkIpSettings_ne_panicked stream setting h

theorem checkSettingsForStream_ne_panicked (stream : Stream) (settings : List StreamSetting)
    (hM : stream.encapsulation = Encapsulation.Mpls → stream.number_of_lse ≠ none)
    (hS : stream.encapsulation = Encapsulation.SRv6 → stream.number_of_srv6_sids ≠ none) :
    checkSettingsForStream stream settings ≠ VResult.panicked := by
  induction settings with
  | nil => rw [checkSettingsForStream]; simp
  | cons hd tl ih =>
      intro h
      rw [checkSettingsForStream] at h
      rcases (andThen_panicked_iff _ _).mp h with hbody | ⟨-, hrest⟩
      · rw [checkSettingBody] at hbody
        rcases (andThen_panicked_iff _ _).mp hbody with hm | ⟨-, hv⟩
        · split_ifs at hm with hid
          exact checkMatchingSetting_ne_panicked stream hd hM hS hm
        · exact checkVxlanSetting_ne_panicked stream hd hv
      · exact ih hrest

theorem checkStreams_ne_panicked (c : Consts) (t2 : Bool) (settings : List StreamSetting)
    (streams : List Stream) :
    checkStreams c t2 settings streams ≠ VResult.panicked := by
  induction streams with
  | nil => rw [checkStreams]; simp
  | cons hd tl ih =>
      intro h
      rw [checkStreams] at h
      rcases (andThen_panicked_iff _ _).mp h with hone | ⟨-, hrest⟩
      · rw [checkStream] at hone
        rcases (andThen_panicked_iff _ _).mp hone with henc | ⟨hok, hloop⟩
        · exact checkStreamEncapsulation_ne_panicked c t2 hd henc
        · obtain ⟨hM, hS⟩ := checkStreamEncapsulation_ok_fields c t2 hd hok
          exact checkSettingsForStream_ne_panicked hd settings hM hS hloop
      · exact ih hrest

theorem validate_ne_ok_of_enc (c : Consts) (streams : List Stream)
    (settings : List StreamSetting) (mode : GenerationMode) (t2 : Bool) (stream : Stream)
    (hs : stream ∈ streams) (h : checkStreamEncapsulation c t2 stream ≠ VResult.ok) :
    validate_request c streams settings mode t2 ≠ VResult.ok := fun hok =>
  h (validate_ok_stream c streams settings mode t2 stream hok hs).1

theorem validate_ne_ok_of_matching (c : Consts) (streams : List Stream)
    (settings : List StreamSetting) (mode : GenerationMode) (t2 : Bool)
    (stream : Stream) (setting : StreamSetting)
    (hs : stream ∈ streams) (hset : setting ∈ settings)
    (hid : setting.stream_id = stream.stream_id)
    (h : checkMatchingSetting stream setting ≠ VResult.ok) :
    validate_request c streams settings mode t2 ≠ VResult.ok := fun hok =>
  h ((validate_ok_setting c streams settings mode t2 stream setting hok hs hset).1 hid)

theorem validate_ne_ok_of_vxlan (c : Consts) (streams : List Stream)
    (settings : List StreamSetting) (mode : GenerationMode) (t2 : Bool)
    (stream : Stream) (setting : StreamSetting)
    (hs : stream ∈ streams) (hset : setting ∈ settings)
    (h : checkVxlanSetting stream setting ≠ VResult.ok) :
    validate_request c streams settings mode t2 ≠ VResult.ok := fun hok =>
  h (validate_ok_setting c streams settings mode t2 stream setting hok hs hset).2

/-- Claim C6: a request containing a stream with SRv6 encapsulation is always
rejected when the `is_tofino2` capability flag is false, independent of all
other fields, the settings and the mode. -/
theorem c6_srv6_requires_tofino2 (c : Consts) (streams : List Stream)
    (settings : List StreamSetting) (mode : GenerationMode) (stream : Stream)
    (hs : stream ∈ streams) (henc : stream.encapsulation = Encapsulation.SRv6) :
    validate_request c streams settings mode false ≠ VResult.ok := by
  apply validate_ne_ok_of_enc c streams settings mode false stream hs
  rw [checkStreamEncapsulation, henc]
  simp

theorem c6_witness :
    validate_request c0
      [{ baseStream with encapsulation := Encapsulation.SRv6, number_of_srv6_sids := some 2 }]
      [baseSetting] GenerationMode.Rate false ≠ VResult.ok :=
  c6_srv6_requires_tofino2 c0 _ _ _
    { baseStream with encapsulation := Encapsulation.SRv6, number_of_srv6_sids := some 2 }
    (by simp) rfl

/-- Claim C8 counterexample: line 123 sums the `frame_size` fields as u32,
which wraps modulo 2^32, so two streams of 2^31 bytes each — every field a
representable u32 and the true sum 2^32 far above the buffer limit — wrap
to a computed sum of 0; the check passes and the request is accepted. -/
theorem c8_counterexample :
    ([{ baseStream with frame_size := 2 ^ 31 },
        { baseStream with stream_id := 2, frame_size := 2 ^ 31 }].map
          (fun s => s.frame_size)).sum > c0.MAX_BUFFER_SIZE ∧
      ({ baseStream with frame_size := 2 ^ 31 } : Stream).frame_size < 2 ^ 32 ∧
      ({ baseStream with stream_id := 2, frame_size := 2 ^ 31 } : Stream).frame_size <
        2 ^ 32 ∧
      validate_request c0
        [{ baseStream with frame_size := 2 ^ 31 },
          { baseStream with stream_id := 2, frame_size := 2 ^ 31 }] []
        GenerationMode.Analyze false = VResult.ok := by
  refine ⟨by decide, by decide, by decide, ?_⟩
  decide

/-- Claim C8 (amended): rejection is guaranteed whenever the u32 sum of the
`frame_size` fields — the sum reduced modulo 2^32 that line 123 actually
computes — exceeds `MAX_BUFFER_SIZE`, in every generation mode including
Analyze; in particular, for every input whose mathematical frame-size sum
stays below 2^32 (no u32 wrap-around), a sum exceeding the limit is always
rejected.  When the sum wraps past 2^32 the check can be bypassed. -/
theorem c8_frame_size_sum (c : Consts) (streams : List Stream)
    (settings : List StreamSetting) (mode : GenerationMode) (t2 : Bool) :
    (frameSizeSum streams > c.MAX_BUFFER_SIZE →
      validate_request c streams settings mode t2 ≠ VResult.ok) ∧
    ((streams.map (fun s => s.frame_size)).sum < 2 ^ 32 →
      (streams.map (fun s => s.frame_size)).sum > c.MAX_BUFFER_SIZE →
      validate_request c streams settings mode t2 ≠ VResult.ok) := by
  have main : frameSizeSum streams > c.MAX_BUFFER_SIZE →
      validate_request c streams settings mode t2 ≠ VResult.ok := by
    intro h hok
    have hagg := validate_ok_aggregate c streams settings mode t2 hok
    rw [checkAggregate_ok_iff] at hagg
    exact absurd hagg.1 (not_le.mpr h)
  refine ⟨main, fun hlt hgt => main ?_⟩
  rw [frameSizeSum, Nat.mod_eq_of_lt hlt]
  exact hgt

theorem c8_witness :
    validate_request c0 [{ baseStream with frame_size := 100000 }] []
        GenerationMode.Analyze true ≠ VResult.ok ∧
      validate_request c0 [{ baseStream with frame_size := 70000 }] []
        GenerationMode.Analyze false ≠ VResult.ok :=
  ⟨(c8_frame_size_sum c0 [{ baseStream with frame_size := 100000 }] []
      GenerationMode.Analyze true).1 (by decide),
    (c8_frame_size_sum c0 [{ baseStream with frame_size := 70000 }] []
      GenerationMode.Analyze false).2 (by decide) (by decide)⟩

/-- Claim C9: the empty request (no streams, no settings) in Analyze mode is
accepted for either value of the capability flag: the non-empty checks and
the rate ceiling check are bypassed and no other check can fire. -/
theorem c9_analyze_empty_ok (c : Consts) (t2 : Bool) :
    validate_request c [] [] GenerationMode.Analyze t2 = VResult.ok := by
  rw [validate_request, checkStreams, checkAggregate]
  simp [frameSizeSum, VResult.andThen]

/-- Claim C10: `validate_request` is total: every `unwrap` in its body is
protected by an earlier `is_none` / missing-field early return, so the
`panicked` outcome is unreachable for all inputs. -/
theorem c10_validate_never_panics (c : Consts) (streams : List Stream)
    (settings : List StreamSetting) (mode : GenerationMode) (t2 : Bool) :
    validate_request c streams settings mode t2 ≠ VResult.panicked := by
  intro h
  rw [validate_request] at h
  rcases (andThen_panicked_iff _ _).mp h with h1 | ⟨-, h2⟩
  · exact checkStreams_ne_panicked c t2 settings streams h1
  · exact checkAggregate_ne_panicked c streams settings mode t2 h2

/-- Claim C1: when a stream has the `vxlan` flag set, every setting of the
full settings collection — even one whose `stream_id` does not match the
stream — must carry a present `vxlan` config; a setting without one makes
validation fail, and the per-setting check produces the
missing-VxLAN-settings error naming that stream. -/
theorem c1_vxlan_all_settings (c : Consts) (streams : List Stream)
    (settings : List StreamSetting) (mode : GenerationMode) (t2 : Bool)
    (stream : Stream) (setting : StreamSetting)
    (hs : stream ∈ streams) (hset : setting ∈ settings)
    (hvx : stream.vxlan = true) (hnone : setting.vxlan = none) :
    validate_request c streams settings mode t2 ≠ VResult.ok ∧
      checkVxlanSetting stream setting =
        VResult.err (VError.vxlanSettingsMissing stream.stream_id) := by
  have hcv : checkVxlanSetting stream setting =
      VResult.err (VError.vxlanSettingsMissing stream.stream_id) := by
    rw [checkVxlanSetting, if_pos ⟨hvx, hnone⟩]
  refine ⟨?_, hcv⟩
  apply validate_ne_ok_of_vxlan c streams settings mode t2 stream setting hs hset
  rw [hcv]
  simp

theorem c1_witness :
    validate_request c0 [{ baseStream with vxlan := true }]
        [{ baseSetting with stream_id := 99 }] GenerationMode.Rate false ≠ VResult.ok ∧
      checkVxlanSetting { baseStream with vxlan := true } { baseSetting with stream_id := 99 } =
        VResult.err (VError.vxlanSettingsMissing 1) :=
  c1_vxlan_all_settings c0 _ _ GenerationMode.Rate false
    { baseStream with vxlan := true } { baseSetting with stream_id := 99 }
    (by simp) (by simp) rfl rfl

/-- Claim C2 counterexample: a stream with `vxlan = true` and
`ip_version = Some(6)` is nevertheless accepted when the settings list is
empty and the mode is Analyze: the VxLAN/IPv6 mutual-exclusion check sits
inside the loop over settings and is never executed. -/
theorem c2_counterexample :
    ({ baseStream with vxlan := true, ip_version := some 6 } : Stream).vxlan = true ∧
      ({ baseStream with vxlan := true, ip_version := some 6 } : Stream).ip_version = some 6 ∧
      validate_request c0 [{ baseStream with vxlan := true, ip_version := some 6 }] []
        GenerationMode.Analyze false = VResult.ok := by
  refine ⟨rfl, rfl, ?_⟩
  decide

/-- Claim C2 (amended): a stream with `vxlan = true` and
`ip_version = Some(6)` makes validation fail provided the settings list is
non-empty or the mode is not Analyze (with an empty settings list in
Analyze mode the per-setting loop body never runs and the request can be
accepted). -/
theorem c2_vxlan_ipv6 (c : Consts) (streams : List Stream)
    (settings : List StreamSetting) (mode : GenerationMode) (t2 : Bool) (stream : Stream)
    (hs : stream ∈ streams) (hvx : stream.vxlan = true) (hip : stream.ip_version = some 6)
    (hne : settings ≠ [] ∨ mode ≠ GenerationMode.Analyze) :
    validate_request c streams settings mode t2 ≠ VResult.ok := by
  intro hok
  rcases hsettings : settings with _ | ⟨hd, tl⟩
  · subst hsettings
    rcases hne with hne | hne
    · exact hne rfl
    · have hagg := validate_ok_aggregate c streams [] mode t2 hok
      rw [checkAggregate_ok_iff] at hagg
      exact hagg.2.1 ⟨rfl, hne⟩
  · subst hsettings
    have hv := (validate_ok_setting c streams (hd :: tl) mode t2 stream hd hok hs
      (by simp)).2
    rw [checkVxlanSetting] at hv
    split_ifs at hv with h1 h2 h3 <;> simp_all

theorem c2_witness :
    validate_request c0 [{ baseStream with vxlan := true, ip_version := some 6 }]
      [baseSetting] GenerationMode.Analyze false ≠ VResult.ok :=
  c2_vxlan_ipv6 c0 _ _ GenerationMode.Analyze false
    { baseStream with vxlan := true, ip_version := some 6 }
    (by simp) rfl rfl (Or.inl (by simp))

/-- Claim C7: an MPLS stream is rejected when `number_of_lse` is absent,
when it exceeds `MAX_NUM_MPLS_LABEL`, and when it is zero, each case with
its own distinct error value. -/
theorem c7_mpls_lse_structural (c : Consts) (streams : List Stream)
    (settings : List StreamSetting) (mode : GenerationMode) (t2 : Bool) (stream : Stream)
    (hs : stream ∈ streams) (henc : stream.encapsulation = Encapsulation.Mpls) :
    (stream.number_of_lse = none →
      validate_request c streams settings mode t2 ≠ VResult.ok ∧
        checkStreamEncapsulation c t2 stream =
          VResult.err (VError.numberOfLseMissing stream.stream_id)) ∧
    (∀ n, stream.number_of_lse = some n → n > c.MAX_NUM_MPLS_LABEL →
      validate_request c streams settings mode t2 ≠ VResult.ok ∧
        checkStreamEncapsulation c t2 stream =
          VResult.err (VError.lseExceedsMax stream.stream_id c.MAX_NUM_MPLS_LABEL)) ∧
    (stream.number_of_lse = some 0 →
      validate_request c streams settings mode t2 ≠ VResult.ok ∧
        checkStreamEncapsulation c t2 stream =
          VResult.err (VError.lseZero stream.stream_id)) ∧
    (VError.numberOfLseMissing stream.stream_id ≠
        VError.lseExceedsMax stream.stream_id c.MAX_NUM_MPLS_LABEL ∧
      VError.numberOfLseMissing stream.stream_id ≠ VError.lseZero stream.stream_id ∧
      VError.lseExceedsMax stream.stream_id c.MAX_NUM_MPLS_LABEL ≠
        VError.lseZero stream.stream_id) := by
  refine ⟨fun hnone => ?_, fun n hn hbig => ?_, fun hzero => ?_, by simp, by simp, by simp⟩
  · have henc2 : checkStreamEncapsulation c t2 stream =
        VResult.err (VError.numberOfLseMissing stream.stream_id) := by
      rw [checkStreamEncapsulation, henc]
      simp [hnone]
    exact ⟨validate_ne_ok_of_enc c streams settings mode t2 stream hs (by rw [henc2]; simp),
      henc2⟩
  · have henc2 : checkStreamEncapsulation c t2 stream =
        VResult.err (VError.lseExceedsMax stream.stream_id c.MAX_NUM_MPLS_LABEL) := by
      rw [checkStreamEncapsulation, henc]
      simp [hn, hbig]
    exact ⟨validate_ne_ok_of_enc c streams settings mode t2 stream hs (by rw [henc2]; simp),
      henc2⟩
  · have henc2 : checkStreamEncapsulation c t2 stream =
        VResult.err (VError.lseZero stream.stream_id) := by
      rw [checkStreamEncapsulation, henc]
      simp [hzero]
    exact ⟨validate_ne_ok_of_enc c streams settings mode t2 stream hs (by rw [henc2]; simp),
      henc2⟩

theorem c7_witness :
    (validate_request c0
        [{ baseStream with encapsulation := Encapsulation.Mpls, number_of_lse := some 0 }]
        [baseSetting] GenerationMode.Rate false ≠ VResult.ok ∧
      checkStreamEncapsulation c0 false
          { baseStream with encapsulation := Encapsulation.Mpls, number_of_lse := some 0 } =
        VResult.err (VError.lseZero 1)) ∧
    (validate_request c0
        [{ baseStream with encapsulation := Encapsulation.Mpls, number_of_lse := some 16 }]
        [baseSetting] GenerationMode.Rate false ≠ VResult.ok) ∧
    (validate_request c0
        [{ baseStream with encapsulation := Encapsulation.Mpls }]
        [baseSetting] GenerationMode.Rate false ≠ VResult.ok) :=
  ⟨(c7_mpls_lse_structural c0 _ _ GenerationMode.Rate false
      { baseStream with encapsulation := Encapsulation.Mpls, number_of_lse := some 0 }
      (by simp) rfl).2.2.1 rfl,
    ((c7_mpls_lse_structural c0 _ _ GenerationMode.Rate false
      { baseStream with encapsulation := Encapsulation.Mpls, number_of_lse := some 16 }
      (by simp) rfl).2.1 16 rfl (by decide)).1,
    ((c7_mpls_lse_structural c0 _ _ GenerationMode.Rate false
      { baseStream with encapsulation := Encapsulation.Mpls }
      (by simp) rfl).1 rfl).1⟩

/-- Claim C3: for an MPLS stream and a setting with matching `stream_id`, a
missing `mpls_stack` yields the missing-stack failure, a present stack whose
length differs from `number_of_lse` yields the distinct length-mismatch
failure, and equal lengths pass validation when the rest of the request is
valid. -/
theorem c3_mpls_stack (c : Consts) (streams : List Stream) (settings : List StreamSetting)
    (mode : GenerationMode) (t2 : Bool) (stream : Stream) (setting : StreamSetting)
    (henc : stream.encapsulation = Encapsulation.Mpls)
    (hid : setting.stream_id = stream.stream_id) :
    (stream ∈ streams → setting ∈ settings → setting.mpls_stack = none →
      validate_request c streams settings mode t2 ≠ VResult.ok ∧
        checkMplsStackPresent stream setting =
          VResult.err (VError.mplsStackMissing stream.stream_id setting.port)) ∧
    (∀ stack n, stream ∈ streams → setting ∈ settings →
      setting.mpls_stack = some stack → stream.number_of_lse = some n → stack.length ≠ n →
      validate_request c streams settings mode t2 ≠ VResult.ok ∧
        checkMplsStackLen stream setting =
          VResult.err (VError.lseCountMismatch setting.stream_id)) ∧
    VError.mplsStackMissing stream.stream_id setting.port ≠
      VError.lseCountMismatch setting.stream_id ∧
    (∀ stack n, setting.mpls_stack = some stack → stream.number_of_lse = some n →
      stack.length = n → 0 < n → n ≤ c.MAX_NUM_MPLS_LABEL →
      stream.ip_version = none → stream.vxlan = false →
      stream.frame_size ≤ c.MAX_BUFFER_SIZE → stream.traffic_rate ≤ c.TG_MAX_RATE →
      validate_request c [stream] [setting] GenerationMode.Rate false = VResult.ok) := by
  refine ⟨fun hs hset hnone => ?_, fun stack n hs hset hstack hlse hne => ?_, by simp,
    fun stack n hstack hlse hlen hpos hmax hipv hvx hframe hrate => ?_⟩
  · have hpres : checkMplsStackPresent stream setting =
        VResult.err (VError.mplsStackMissing stream.stream_id setting.port) := by
      rw [checkMplsStackPresent, if_pos ⟨henc, hnone⟩]
    refine ⟨validate_ne_ok_of_matching c streams settings mode t2 stream setting hs hset hid
      fun hm => ?_, hpres⟩
    rw [checkMatchingSetting_ok_iff] at hm
    rw [hpres] at hm
    exact absurd hm.2.1 (by simp)
  · have hlenerr : checkMplsStackLen stream setting =
        VResult.err (VError.lseCountMismatch setting.stream_id) := by
      rw [checkMplsStackLen, if_pos henc]
      simp [hstack, hlse, hne]
    refine ⟨validate_ne_ok_of_matching c streams settings mode t2 stream setting hs hset hid
      fun hm => ?_, hlenerr⟩
    rw [checkMatchingSetting_ok_iff] at hm
    rw [hlenerr] at hm
    exact absurd hm.2.2.1 (by simp)
  · have hbig : ¬(n > c.MAX_NUM_MPLS_LABEL) := not_lt.mpr hmax
    have hz : n ≠ 0 := Nat.pos_iff_ne_zero.mp hpos
    have h1 : checkStreamEncapsulation c false stream = VResult.ok := by
      rw [checkStreamEncapsulation, henc]
      simp [hlse, hbig, hz]
    have h2 : checkMatchingSetting stream setting = VResult.ok := by
      rw [checkMatchingSetting_ok_iff]
      refine ⟨?_, ?_, ?_, ?_, ?_, ?_⟩
      · rw [checkVlanSetting]; simp [henc]
      · rw [checkMplsStackPresent]; simp [hstack]
      · rw [checkMplsStackLen, if_pos henc]; simp [hstack, hlse, hlen]
      · rw [checkSidListPresent]; simp [henc]
      · rw [checkSidListLen]; simp [henc]
      · rw [checkIpSettings]; simp [henc, hipv]
    have h3 : checkVxlanSetting stream setting = VResult.ok := by
      rw [checkVxlanSetting]; simp [hvx]
    have hfr : ¬(frameSizeSum [stream] > c.MAX_BUFFER_SIZE) := by
      rw [frameSizeSum, not_lt]
      exact le_trans (Nat.mod_le _ _) (by simpa using hframe)
    have hra : ¬(aggregateRate c GenerationMode.Rate [stream] > c.TG_MAX_RATE) := by
      simp [aggregateRate]
      exact hrate
    rw [validate_request, checkStreams, checkStream, checkStreams, checkSettingsForStream,
      checkSettingsForStream, checkSettingBody, if_pos hid, h1, h2, h3, checkAggregate,
      if_neg hfr]
    simp [VResult.andThen, hra]

/-- Claim C4: for a setting whose `stream_id` matches a stream, when the
stream is not SRv6 or is SRv6 with IP tunneling enabled (`srv6_ip_tunneling`
defaults to true when absent), a present `ip_version` other than 4 or 6
fails, `ip_version = 4` without an `ip` setting fails, `ip_version = 6`
without an `ipv6` setting fails; for SRv6 with `srv6_ip_tunneling = false`
the IP checks are skipped. -/
theorem c4_ip_version_checks (c : Consts) (streams : List Stream)
    (settings : List StreamSetting) (mode : GenerationMode) (t2 : Bool)
    (stream : Stream) (setting : StreamSetting)
    (hs : stream ∈ streams) (hset : setting ∈ settings)
    (hid : setting.stream_id = stream.stream_id) :
    (∀ v, ((stream.encapsulation = Encapsulation.SRv6 ∧
          stream.srv6_ip_tunneling.getD true = true) ∨
        stream.encapsulation ≠ Encapsulation.SRv6) →
      stream.ip_version = some v → v ≠ 4 → v ≠ 6 →
      validate_request c streams settings mode t2 ≠ VResult.ok ∧
        checkIpSettings stream setting =
          VResult.err (VError.unsupportedIpVersion stream.stream_id setting.port)) ∧
    (((stream.encapsulation = Encapsulation.SRv6 ∧
          stream.srv6_ip_tunneling.getD true = true) ∨
        stream.encapsulation ≠ Encapsulation.SRv6) →
      stream.ip_version = some 4 → setting.ip = none →
      validate_request c streams settings mode t2 ≠ VResult.ok ∧
        checkIpSettings stream setting =
          VResult.err (VError.ipv4SettingsMissing stream.stream_id setting.port)) ∧
    (((stream.encapsulation = Encapsulation.SRv6 ∧
          stream.srv6_ip_tunneling.getD true = true) ∨
        stream.encapsulation ≠ Encapsulation.SRv6) →
      stream.ip_version = some 6 → setting.ipv6 = none →
      validate_request c streams settings mode t2 ≠ VResult.ok ∧
        checkIpSettings stream setting =
          VResult.err (VError.ipv6SettingsMissing stream.stream_id setting.port)) ∧
    (stream.encapsulation = Encapsulation.SRv6 → stream.srv6_ip_tunneling = some false →
      checkIpSettings stream setting = VResult.ok) := by
  have base : ∀ e, checkIpSettings stream setting = VResult.err e →
      validate_request c streams settings mode t2 ≠ VResult.ok := by
    intro e he
    refine validate_ne_ok_of_matching c streams settings mode t2 stream setting hs hset hid
      fun hm => ?_
    rw [checkMatchingSetting_ok_iff] at hm
    rw [he] at hm
    exact absurd hm.2.2.2.2.2 (by simp)
  refine ⟨fun v happ hip hv4 hv6 => ?_, fun happ hip hipn => ?_, fun happ hip hipn => ?_,
    fun henc htun => ?_⟩
  · have herr : checkIpSettings stream setting =
        VResult.err (VError.unsupportedIpVersion stream.stream_id setting.port) := by
      rw [checkIpSettings, if_pos happ]
      simp [hip, hv4, hv6]
    exact ⟨base _ herr, herr⟩
  · have herr : checkIpSettings stream setting =
        VResult.err (VError.ipv4SettingsMissing stream.stream_id setting.port) := by
      rw [checkIpSettings, if_pos happ]
      simp [hip, hipn]
    exact ⟨base _ herr, herr⟩
  · have herr : checkIpSettings stream setting =
        VResult.err (VError.ipv6SettingsMissing stream.stream_id setting.port) := by
      rw [checkIpSettings, if_pos happ]
      simp [hip, hipn]
    exact ⟨base _ herr, herr⟩
  · rw [checkIpSettings]
    simp [henc, htun]

theorem c3_witness :
    (validate_request c0
        [{ baseStream with encapsulation := Encapsulation.Mpls, number_of_lse := some 3 }]
        [baseSetting] GenerationMode.Rate false ≠ VResult.ok ∧
      checkMplsStackPresent
          { baseStream with encapsulation := Encapsulation.Mpls, number_of_lse := some 3 }
          baseSetting =
        VResult.err (VError.mplsStackMissing 1 5)) ∧
    (validate_request c0
        [{ baseStream with encapsulation := Encapsulation.Mpls, number_of_lse := some 3 }]
        [{ baseSetting with mpls_stack := some [MPLSHeader.mk, MPLSHeader.mk] }]
        GenerationMode.Rate false ≠ VResult.ok) ∧
    validate_request c0
        [{ baseStream with encapsulation := Encapsulation.Mpls, number_of_lse := some 3 }]
        [{ baseSetting with mpls_stack := some [MPLSHeader.mk, MPLSHeader.mk, MPLSHeader.mk] }]
        GenerationMode.Rate false = VResult.ok :=
  ⟨(c3_mpls_stack c0 _ _ GenerationMode.Rate false
      { baseStream with encapsulation := Encapsulation.Mpls, number_of_lse := some 3 }
      baseSetting rfl rfl).1 (by simp) (by simp) rfl,
    ((c3_mpls_stack c0 _ _ GenerationMode.Rate false
      { baseStream with encapsulation := Encapsulation.Mpls, number_of_lse := some 3 }
      { baseSetting with mpls_stack := some [MPLSHeader.mk, MPLSHeader.mk] }
      rfl rfl).2.1 [MPLSHeader.mk, MPLSHeader.mk] 3 (by simp) (by simp) rfl rfl
      (by decide)).1,
    (c3_mpls_stack c0 [] [] GenerationMode.Rate false
      { baseStream with encapsulation := Encapsulation.Mpls, number_of_lse := some 3 }
      { baseSetting with mpls_stack := some [MPLSHeader.mk, MPLSHeader.mk, MPLSHeader.mk] }
      rfl rfl).2.2.2 [MPLSHeader.mk, MPLSHeader.mk, MPLSHeader.mk] 3 rfl rfl rfl
      (by decide) (by decide) rfl rfl (by decide) (by decide)⟩

theorem c4_witness :
    (validate_request c0 [{ baseStream with ip_version := some 5 }] [baseSetting]
        GenerationMode.Rate false ≠ VResult.ok ∧
      checkIpSettings { baseStream with ip_version := some 5 } baseSetting =
        VResult.err (VError.unsupportedIpVersion 1 5)) ∧
    (validate_request c0 [{ baseStream with ip_version := some 4 }] [baseSetting]
        GenerationMode.Rate false ≠ VResult.ok ∧
      checkIpSettings { baseStream with ip_version := some 4 } baseSetting =
        VResult.err (VError.ipv4SettingsMissing 1 5)) ∧
    (validate_request c0 [{ baseStream with ip_version := some 6 }] [baseSetting]
        GenerationMode.Rate false ≠ VResult.ok ∧
      checkIpSettings { baseStream with ip_version := some 6 } baseSetting =
        VResult.err (VError.ipv6SettingsMissing 1 5)) ∧
    checkIpSettings
        { baseStream with
          encapsulation := Encapsulation.SRv6
          srv6_ip_tunneling := some false
          ip_version := some 5 }
        baseSetting = VResult.ok :=
  ⟨(c4_ip_version_checks c0 _ _ GenerationMode.Rate false
      { baseStream with ip_version := some 5 } baseSetting
      (by simp) (by simp) rfl).1 5 (Or.inr (by decide)) rfl (by decide) (by decide),
    (c4_ip_version_checks c0 _ _ GenerationMode.Rate false
      { baseStream with ip_version := some 4 } baseSetting
      (by simp) (by simp) rfl).2.1 (Or.inr (by decide)) rfl rfl,
    (c4_ip_version_checks c0 _ _ GenerationMode.Rate false
      { baseStream with ip_version := some 6 } baseSetting
      (by simp) (by simp) rfl).2.2.1 (Or.inr (by decide)) rfl rfl,
    (c4_ip_version_checks c0
      [{ baseStream with
          encapsulation := Encapsulation.SRv6
          srv6_ip_tunneling := some false
          ip_version := some 5 }]
      [baseSetting] GenerationMode.Rate false
      { baseStream with
        encapsulation := Encapsulation.SRv6
        srv6_ip_tunneling := some false
        ip_version := some 5 }
      baseSetting (by simp) (by simp) rfl).2.2.2 rfl rfl⟩

end P4TG
